import Mathlib

/-!
Verification of the request-to-result pipeline of the Data Chat Assistant
(`src/newapp.py`).  Python strings are modelled as `List Char`; the string
primitives used by the source (`str.strip`, `str.split`, the `in` operator,
`int(...)`) are re-implemented below with Python's semantics, by structural
recursion so every definition evaluates inside the kernel.
-/

namespace DataChat

/-- The backtick character, used by the markdown fence logic. -/
def tick : Char := ("`".data).headD ' '

/-- Python `str.strip()` whitespace set (the ASCII part): space, tab,
newline, carriage return, vertical tab, form feed. -/
def isPyWhitespace (c : Char) : Bool :=
  c = ' ' || c = '\t' || c = '\n' || c = '\r' || c = Char.ofNat 11 || c = Char.ofNat 12

/-- Python `s.strip()`: drop whitespace from both ends. -/
def pyStrip (s : List Char) : List Char :=
  ((s.dropWhile isPyWhitespace).reverse.dropWhile isPyWhitespace).reverse

/-- `listStartsWith s p = true` iff `p` is a prefix of `s` (Python `s.startswith(p)`). -/
def listStartsWith : List Char → List Char → Bool
  | _, [] => true
  | [], _ :: _ => false
  | a :: as, b :: bs => if a = b then listStartsWith as bs else false

/-- Python `sep in s` (substring occurrence test), for nonempty `sep`. -/
def pyContains (sep : List Char) : List Char → Bool
  | [] => listStartsWith [] sep
  | c :: rest => listStartsWith (c :: rest) sep || pyContains sep rest

/-- Worker for `pySplit`: non-overlapping, leftmost-first splitting on `sep`,
fuelled so that the recursion is structural.  `fuel ≥ s.length` suffices. -/
def pySplitGo (sep : List Char) : Nat → List Char → List Char → List (List Char)
  | _, [], acc => [acc]
  | 0, rest, acc => [acc ++ rest]
  | fuel + 1, c :: cs, acc =>
    if listStartsWith (c :: cs) sep then
      acc :: pySplitGo sep fuel (List.drop (sep.length - 1) cs) []
    else
      pySplitGo sep fuel cs (acc ++ [c])

/-- Python `s.split(sep)` for a nonempty separator. -/
def pySplit (s sep : List Char) : List (List Char) :=
  pySplitGo sep s.length s []

/-- All-digit check plus decimal value of a digit string. -/
def digitsVal (ds : List Char) : Nat :=
  ds.foldl (fun n c => n * 10 + (c.toNat - 48)) 0

/-- Parse an optionally signed run of decimal digits, `none` on anything else. -/
def pyIntCore (t : List Char) : Option Int :=
  match t with
  | '-' :: ds =>
    if ds ≠ [] ∧ ds.all Char.isDigit then some (-(digitsVal ds : Int)) else none
  | '+' :: ds =>
    if ds ≠ [] ∧ ds.all Char.isDigit then some ((digitsVal ds : Int)) else none
  | ds =>
    if ds ≠ [] ∧ ds.all Char.isDigit then some ((digitsVal ds : Int)) else none

/-- Python `int(s)` on the decimal fragment Python accepts: surrounding
whitespace, an optional sign, then digits.  (Grouping underscores and
non-ASCII digits, which CPython also accepts, are not modelled.) -/
def pyInt (s : List Char) : Option Int :=
  pyIntCore (pyStrip s)

end DataChat

namespace DataChat

/-!  ## Data model

`Dataset` models the pandas DataFrame held in `st.session_state.df`: column
names, column dtypes (as strings, mirroring `df.dtypes.astype(str)`), and the
rows; cell values are modelled abstractly as strings.  `PyVal` is the small
universe of Python values the pipeline stores in the `exec` namespace.
-/

/-- The tabular dataset (`st.session_state.df`). -/
structure Dataset where
  colNames : List (List Char)
  colTypes : List (List Char)
  rows : List (List (List Char))
deriving DecidableEq

/-- Python values appearing as bindings of the execution namespace. -/
inductive PyVal where
  | pyNone
  | dataset (d : Dataset)
  | module (name : List Char)
  | obj (tag : Nat)
deriving DecidableEq

/-- The `exec_globals` dictionary: an association list of bindings. -/
abbrev Globals := List (List Char × PyVal)

/-- Dictionary lookup (`d.get(k)` returns `None` when truly absent, which the
caller of `execute_code` cannot distinguish from a binding that holds `None`;
that collapse happens at the use site, not here). -/
def lookupG : Globals → List Char → Option PyVal
  | [], _ => none
  | (k, v) :: rest, n => if k = n then some v else lookupG rest n

/-- The classified intent of a turn (§3 of the spec). -/
inductive Intent where
  | query
  | visualization
deriving DecidableEq

/-- The ExecutionOutcome tagged variant of the spec's data model. -/
inductive ExecutionOutcome where
  | table (v : PyVal)
  | chart (v : PyVal)
  | failure (msg : List Char)
deriving DecidableEq

def ExecutionOutcome.isTable : ExecutionOutcome → Bool
  | .table _ => true
  | _ => false

def ExecutionOutcome.isChart : ExecutionOutcome → Bool
  | .chart _ => true
  | _ => false

def ExecutionOutcome.isFailure : ExecutionOutcome → Bool
  | .failure _ => true
  | _ => false

/-- One entry of `st.session_state.messages`: a dict with the keys the source
actually writes (`role`, `content`, `code`, `result`, `figure`, `error`),
absent keys modelled as `none`. -/
structure Message where
  role : List Char
  content : Option (List Char)
  code : Option (List Char)
  result : Option PyVal
  figure : Option PyVal
  error : Option (List Char)
deriving DecidableEq

/-- The ambient Streamlit session state used by the pipeline. -/
structure Session where
  messages : List Message
  df : Option Dataset
  apiKey : List Char
  clientConfigured : Bool

/-!  ## Fixed strings of the source -/

def fence : List Char := "```".data
def pythonWord : List Char := "python".data
def pyFence : List Char := "```python".data
def userRole : List Char := "user".data
def assistantRole : List Char := "assistant".data
def noResultMsg : List Char :=
  "No result generated. Please try rephrasing your request.".data
def genFailMsg : List Char := "Failed to generate code. Please try again.".data
def execErrPrefixMsg : List Char := "Execution error: ".data
def execFailPrefixMsg : List Char := "Code execution failed:\n```\n".data
def execFailSuffixMsg : List Char := "\n```".data

/-!  ## Dataset Descriptor (`get_dataframe_info`, lines 198-205)

The source builds a dict `{shape, columns, dtypes, sample}` and stringifies
it; we keep the structured value (the stringification is injective on it and
plays no further role in the pipeline). -/

/-- The structured content of the `info` dict of `get_dataframe_info`. -/
structure DfInfo where
  shape : Nat × Nat
  columns : List (List Char)
  dtypes : List (List Char × List Char)
  sample : List (List (List Char))
deriving DecidableEq

/-- `get_dataframe_info(df)`: shape, columns, dtypes, and `df.head(3)`. -/
def get_dataframe_info (df : Dataset) : DfInfo :=
  { shape := (df.rows.length, df.colNames.length)
    columns := df.colNames
    dtypes := df.colNames.zip df.colTypes
    sample := df.rows.take 3 }

/-- One call of the descriptor inside the ambient session: the source reads
`df` and writes nothing, so the call returns the descriptor and the session
it was given. -/
def describeCall (s : Session) (df : Dataset) : DfInfo × Session :=
  (get_dataframe_info df, s)

/-!  ## Intent Classifier (`classify_prompt`, lines 43-78)

The Language Model Gateway is abstracted by the completion it returns for
this turn: `none` models a gateway failure (exception inside the `try`),
`some text` the completion's text content.  The composed classification
prompt only feeds the black-box gateway, so it does not appear here. -/

/-- `classify_prompt`: an unconfigured client or a gateway failure returns 1;
otherwise the completion is parsed with `int(content.strip())`, any parse
failure again returning the default 1. -/
def classify_prompt (clientConfigured : Bool) (completion : Option (List Char)) : Int :=
  match clientConfigured with
  | false => 1
  | true =>
    match completion with
    | none => 1
    | some text =>
      match pyInt text with
      | some n => n
      | none => 1

/-- How the rest of the turn reads the classification: `classification == 1`
selects the query template (line 89) and the Data Query label (line 269);
everything else goes down the visualization path. -/
def intentOf (classification : Int) : Intent :=
  if classification = 1 then .query else .visualization

/-!  ## Code Synthesizer (`generate_code`, lines 81-167)

The two prompt templates only feed the gateway; the observable part is the
extraction of the code block from the completion (lines 157-164). -/

/-- Lines 157-164 of `generate_code`: strip the completion; if it contains
a ```python fence, take the text after the first such fence up to the next
``` and strip it; otherwise, if it contains ```, take the text between the
first two ``` and strip it; otherwise the stripped completion itself. -/
def extract_code (rawCompletion : List Char) : List Char :=
  let code := pyStrip rawCompletion
  if pyContains pyFence code then
    pyStrip ((pySplit ((pySplit code pyFence).getD 1 []) fence).getD 0 [])
  else if pyContains fence code then
    pyStrip ((pySplit ((pySplit code fence).getD 1 []) fence).getD 0 [])
  else code

/-- `generate_code`: `none` when the client is unconfigured or the gateway
fails (both produce `return None` via the guard and the `except` branch);
otherwise the code extracted from the completion. -/
def generate_code (clientConfigured : Bool) (completion : Option (List Char)) :
    Option (List Char) :=
  match clientConfigured with
  | false => none
  | true =>
    match completion with
    | none => none
    | some text => some (extract_code text)

/-!  ## Execution Sandbox (`execute_code`, lines 170-195)

A snippet is modelled by its effect on the execution namespace it is handed:
either it completes, leaving final bindings, captured stdout/stderr buffers,
and the (possibly mutated) state of the dataset object the caller shares
with it, or it raises a fault.  `isBase = true` marks a fault outside
Python's `Exception` hierarchy (`SystemExit`, `KeyboardInterrupt`), which
line 193's `except Exception` does not catch. -/

/-- Result of running a snippet under `exec` inside the capture context. -/
inductive ExecResult where
  | done (finalGlobals : Globals) (dfAfter : Dataset) (stdoutBuf stderrBuf : List Char)
  | fault (isBase : Bool) (desc : List Char) (dfAfter : Dataset)
      (stdoutBuf stderrBuf : List Char)

/-- The state of the caller's dataset object after the snippet ran. -/
def ExecResult.datasetAfter : ExecResult → Dataset
  | .done _ d _ _ => d
  | .fault _ _ d _ _ => d

/-- The final bindings of the execution namespace (empty for a fault, where
line 185 never returns). -/
def ExecResult.finalGlobals : ExecResult → Globals
  | .done g _ _ _ => g
  | .fault _ _ _ _ _ => []

/-- Whether the snippet raised outside the `Exception` hierarchy. -/
def ExecResult.raisesBase : ExecResult → Bool
  | .fault true _ _ _ _ => true
  | _ => false

/-- What a call of `execute_code` does, as observed by its caller:
`ret = none` means an exception escaped the function (no pair returned),
`displayedError` is the `st.error` box it rendered, `dfAfter` the state of
the dataset object afterwards. -/
structure CallResult where
  ret : Option (PyVal × PyVal)
  displayedError : Option (List Char)
  dfAfter : Dataset
deriving DecidableEq

/-- Lines 172-179: the fresh `exec_globals` dict built on every call. -/
def mkExecGlobals (df : Dataset) : Globals :=
  [("df".data, PyVal.dataset df),
   ("pd".data, PyVal.module "pandas".data),
   ("px".data, PyVal.module "plotly.express".data),
   ("result".data, PyVal.pyNone),
   ("fig".data, PyVal.pyNone),
   ("datetime".data, PyVal.module "datetime".data)]

/-- The six names pre-bound by `mkExecGlobals`. -/
def presetNames : List (List Char) :=
  ["df".data, "pd".data, "px".data, "result".data, "fig".data, "datetime".data]

/-- Lines 184-195: what happens after `exec` ran (or raised).  A fault of
`Exception` class is caught and reported, returning `(None, None)`; a fault
outside it propagates; otherwise a non-empty stderr buffer is reported and
`(None, None)` returned; otherwise the pair
`(exec_globals.get('result'), exec_globals.get('fig'))`. -/
def execRun : ExecResult → Dataset → CallResult
  | .fault isBase desc dfA _ _, _ =>
    if isBase then
      { ret := none, displayedError := none, dfAfter := dfA }
    else
      { ret := some (PyVal.pyNone, PyVal.pyNone)
        displayedError := some (execFailPrefixMsg ++ desc ++ execFailSuffixMsg)
        dfAfter := dfA }
  | .done g dfA _ err, _ =>
    if err = [] then
      { ret := some ((lookupG g "result".data).getD PyVal.pyNone,
                     (lookupG g "fig".data).getD PyVal.pyNone)
        displayedError := none
        dfAfter := dfA }
    else
      { ret := some (PyVal.pyNone, PyVal.pyNone)
        displayedError := some (execErrPrefixMsg ++ err)
        dfAfter := dfA }

/-- `execute_code(code, df)`: build a fresh namespace from the current
dataset, run the snippet in it, post-process.  The snippet is given by its
semantics `sem`. -/
def execute_code (sem : Globals → ExecResult) (df : Dataset) : CallResult :=
  execRun (sem (mkExecGlobals df)) df

/-!  ## Conversation Orchestrator (module level, lines 241-298) -/

/-- Lines 278-289: assemble the assistant `response_data` dict from the
classification and the pair `execute_code` returned. -/
def mkResponseData (code : List Char) (classification : Int) (r f : PyVal) : Message :=
  if classification = 1 ∧ r ≠ PyVal.pyNone then
    { role := assistantRole, content := none, code := some code
      result := some r, figure := none, error := none }
  else if classification = 0 ∧ f ≠ PyVal.pyNone then
    { role := assistantRole, content := none, code := some code
      result := none, figure := some f, error := none }
  else
    { role := assistantRole, content := none, code := some code
      result := none, figure := none, error := some noResultMsg }

/-- The outcome a transcript entry records, read off its populated slot. -/
def recordedOutcome (m : Message) : ExecutionOutcome :=
  match m.result with
  | some v => .table v
  | none =>
    match m.figure with
    | some v => .chart v
    | none => .failure (m.error.getD [])

/-- The user entry appended at line 261. -/
def userMessage (prompt : List Char) : Message :=
  { role := userRole, content := some prompt, code := none
    result := none, figure := none, error := none }

/-- The assistant entry appended on synthesis failure (lines 293-298). -/
def synthFailMessage : Message :=
  { role := assistantRole, content := none, code := none
    result := none, figure := none, error := some genFailMsg }

/-- The per-turn behaviour of the external collaborators: the completion the
gateway returns for the classification call, the one for the synthesis call,
and the semantics of whatever snippet text gets executed. -/
structure TurnEnv where
  classifyCompletion : Option (List Char)
  synthCompletion : Option (List Char)
  sem : List Char → Globals → ExecResult

/-- What one submitted turn did: the transcript afterwards, which pipeline
stages ran, whether an exception escaped the handler, and the dataset
afterwards. -/
structure TurnResult where
  messages : List Message
  classifierRan : Bool
  synthesizerRan : Bool
  sandboxRan : Bool
  aborted : Bool
  dfAfter : Option Dataset

/-- The chat-turn handler.  Line 241 guards the whole chat block: with no
dataset or an empty API key the input box is never rendered, so a turn is
rejected with nothing run and the transcript untouched.  Otherwise the turn
appends the user entry, classifies, synthesizes, and either executes and
records `response_data` (lines 260-291) or records the synthesis-failure
entry without touching the sandbox (lines 292-298).  Python's `if code:`
treats both `None` and the empty string as synthesis failure. -/
def submitTurn (s : Session) (env : TurnEnv) (prompt : List Char) : TurnResult :=
  match s.df with
  | none =>
    { messages := s.messages, classifierRan := false, synthesizerRan := false
      sandboxRan := false, aborted := false, dfAfter := s.df }
  | some df =>
    if s.apiKey = [] then
      { messages := s.messages, classifierRan := false, synthesizerRan := false
        sandboxRan := false, aborted := false, dfAfter := s.df }
    else
      let msgs1 := s.messages ++ [userMessage prompt]
      let c := classify_prompt s.clientConfigured env.classifyCompletion
      let codeOpt := generate_code s.clientConfigured env.synthCompletion
      match codeOpt with
      | some code =>
        if code = [] then
          { messages := msgs1 ++ [synthFailMessage], classifierRan := true
            synthesizerRan := true, sandboxRan := false, aborted := false
            dfAfter := some df }
        else
          let cr := execute_code (env.sem code) df
          match cr.ret with
          | some (r, f) =>
            { messages := msgs1 ++ [mkResponseData code c r f]
              classifierRan := true, synthesizerRan := true, sandboxRan := true
              aborted := false, dfAfter := some cr.dfAfter }
          | none =>
            { messages := msgs1, classifierRan := true, synthesizerRan := true
              sandboxRan := true, aborted := true, dfAfter := some cr.dfAfter }
      | none =>
        { messages := msgs1 ++ [synthFailMessage], classifierRan := true
          synthesizerRan := true, sandboxRan := false, aborted := false
          dfAfter := some df }

/-!  ## Spec-level definitions used to state the claims -/

/-- The classifier behaviour as worded by the spec (§4.3): the completion is
parsed as a single-character numeral, `1` mapping to Query and `0` to
Visualization; everything else is a parse failure defaulting to Query, and a
gateway failure also defaults to Query. -/
def claimedClassifyIntent (completion : Option (List Char)) : Intent :=
  match completion with
  | none => .query
  | some s =>
    match pyStrip s with
    | ['1'] => .query
    | ['0'] => .visualization
    | _ => .query

/-- The classifier behaviour the code actually has, for the amended claim:
the stripped completion is parsed as an optionally signed decimal numeral
(not necessarily a single character); a parse result of 1 yields Query and
any other parsed value yields Visualization; a parse failure or a gateway
failure yields the default Query. -/
def amendedClassifyIntent (completion : Option (List Char)) : Intent :=
  match completion with
  | none => .query
  | some s =>
    match pyInt s with
    | none => .query
    | some n => if n = 1 then .query else .visualization

/-- A markdown language tag: a nonempty alphabetic word after the fence. -/
def isLangTag (tag : List Char) : Bool :=
  tag ≠ [] && tag.all Char.isAlpha

/-- A language-tagged fenced code block with the given tag and content. -/
def langBlock (tag body : List Char) : List Char :=
  fence ++ tag ++ ('\n' :: body) ++ ('\n' :: fence)

/-!  ## Concrete objects for witnesses and counterexamples -/

/-- An empty dataset. -/
def dfEmpty : Dataset := { colNames := [], colTypes := [], rows := [] }

/-- A distinct dataset value, the state a mutating snippet leaves behind. -/
def dfMut : Dataset := { colNames := [], colTypes := [], rows := [[['9']]] }

/-- Semantics of a snippet that mutates the shared dataset object in place
(e.g. `df.drop(df.index, inplace=True)`): it completes normally but the
caller's object afterwards is `dfMut`. -/
def mutSem : Globals → ExecResult :=
  fun g => ExecResult.done g dfMut [] []

/-- Semantics of a well-behaved snippet: completes, defines nothing, mutates
nothing. -/
def preserveSem : Globals → ExecResult :=
  fun g => ExecResult.done g dfEmpty [] []

/-- Semantics of a snippet raising outside the `Exception` hierarchy
(e.g. `raise SystemExit`). -/
def baseSem : Globals → ExecResult :=
  fun _ => ExecResult.fault true "SystemExit".data dfEmpty [] []

/-- Semantics of a snippet that populates `result` but also writes to the
stderr stream. -/
def errSem : Globals → ExecResult :=
  fun g => ExecResult.done (("result".data, PyVal.obj 1) :: g) dfEmpty [] "boom".data

/-- Semantics of a snippet that defines a new top-level name `my_tmp`. -/
def defineSem : Globals → ExecResult :=
  fun g => ExecResult.done (("my_tmp".data, PyVal.obj 0) :: g) dfEmpty [] []

/-- A session with no dataset loaded. -/
def sessionNoDf : Session :=
  { messages := [], df := none, apiKey := "k".data, clientConfigured := false }

/-- A ready session with an empty transcript. -/
def sessionReady : Session :=
  { messages := [], df := some dfEmpty, apiKey := "k".data, clientConfigured := true }

/-- An environment whose synthesis gateway call fails. -/
def envSynthFail : TurnEnv :=
  { classifyCompletion := some "1".data, synthCompletion := none
    sem := fun _ => preserveSem }

end DataChat

namespace DataChat

-- sanity checks of the Python string semantics
example : pyStrip " a b ".data = "a b".data := by decide
example : pySplit "a```b```c".data "```".data = ["a".data, "b".data, "c".data] := by decide
example : pySplit "aXXXb".data "XX".data = ["a".data, "Xb".data] := by decide
example : pySplit "a```".data "```".data = ["a".data, []] := by decide
example : pyContains "```".data "ab```cd".data = true := by decide
example : pyContains "```python".data "ab```cd".data = false := by decide
example : pyInt " 10 ".data = some 10 := by decide
example : pyInt "-3".data = some (-3) := by decide
example : pyInt "1x".data = none := by decide
example : pyInt "".data = none := by decide

-- sanity checks of the pipeline embedding
example : extract_code "here\n```python\nx = 1\n```\nbye".data = "x = 1".data := by decide
example : extract_code "```sql\nSELECT 1\n```".data = "sql\nSELECT 1".data := by decide
example : extract_code "x = 1".data = "x = 1".data := by decide
example : extract_code "``````".data = [] := by decide
example : classify_prompt true (some "1".data) = 1 := by decide
example : classify_prompt true (some "10".data) = 10 := by decide
example : classify_prompt true none = 1 := by decide
example : classify_prompt false (some "0".data) = 1 := by decide
example : (execute_code errSem dfEmpty).ret = some (PyVal.pyNone, PyVal.pyNone) := by decide
example : (execute_code baseSem dfEmpty).ret = none := by decide
example : (execute_code mutSem dfEmpty).dfAfter = dfMut := by decide
example :
    (submitTurn sessionReady envSynthFail "hi".data).messages =
      [userMessage "hi".data, synthFailMessage] := by decide
example : (submitTurn sessionNoDf envSynthFail "hi".data).messages = [] := by decide

/-!  ## C1: intent/outcome matching of the recorded entry -/

/-- C1: for every turn whose Intent is Query, the recorded ExecutionOutcome
is Table or Failure and never Chart; for every turn whose Intent is
Visualization it is Chart or Failure and never Table; an artifact that is
absent (and hence also one that does not match the Intent) yields a Failure
outcome.  Stated over the `response_data` selection of lines 278-291. -/
theorem C1_intent_outcome (c : Int) (code : List Char) (r f : PyVal) :
    (intentOf c = Intent.query →
      (recordedOutcome (mkResponseData code c r f)).isChart = false ∧
      ((recordedOutcome (mkResponseData code c r f)).isTable = true ∨
        (recordedOutcome (mkResponseData code c r f)).isFailure = true) ∧
      (r = PyVal.pyNone →
        (recordedOutcome (mkResponseData code c r f)).isFailure = true)) ∧
    (intentOf c = Intent.visualization →
      (recordedOutcome (mkResponseData code c r f)).isTable = false ∧
      ((recordedOutcome (mkResponseData code c r f)).isChart = true ∨
        (recordedOutcome (mkResponseData code c r f)).isFailure = true) ∧
      (f = PyVal.pyNone →
        (recordedOutcome (mkResponseData code c r f)).isFailure = true)) := by
  by_cases hc1 : c = 1
  · subst hc1
    constructor
    · intro _
      by_cases hr : r = PyVal.pyNone
      · subst hr
        simp [mkResponseData, recordedOutcome,
          ExecutionOutcome.isChart, ExecutionOutcome.isTable, ExecutionOutcome.isFailure]
      · simp [mkResponseData, hr, recordedOutcome,
          ExecutionOutcome.isChart, ExecutionOutcome.isTable, ExecutionOutcome.isFailure]
    · intro h
      simp [intentOf] at h
  · have hint : intentOf c = Intent.visualization := by simp [intentOf, hc1]
    constructor
    · intro h
      rw [hint] at h
      exact absurd h (by decide)
    · intro _
      by_cases hc0 : c = 0
      · subst hc0
        by_cases hf : f = PyVal.pyNone
        · subst hf
          simp [mkResponseData, recordedOutcome,
            ExecutionOutcome.isChart, ExecutionOutcome.isTable, ExecutionOutcome.isFailure]
        · simp [mkResponseData, hf, recordedOutcome,
            ExecutionOutcome.isChart, ExecutionOutcome.isTable, ExecutionOutcome.isFailure]
      · simp [mkResponseData, hc1, hc0, recordedOutcome,
          ExecutionOutcome.isChart, ExecutionOutcome.isTable, ExecutionOutcome.isFailure]

/-- C1 witness: a Query turn with a populated result records no chart, and a
Visualization turn with no artifact records a failure. -/
theorem C1_intent_outcome_witness :
    (recordedOutcome (mkResponseData [] 1 (PyVal.obj 0) PyVal.pyNone)).isChart = false ∧
    (recordedOutcome (mkResponseData [] 0 PyVal.pyNone PyVal.pyNone)).isFailure = true :=
  ⟨((C1_intent_outcome 1 [] (PyVal.obj 0) PyVal.pyNone).1 (by decide)).1,
   ((C1_intent_outcome 0 [] PyVal.pyNone PyVal.pyNone).2 (by decide)).2.2 rfl⟩

/-!  ## C2: classifier parsing and default -/

/-- C2 counterexample: on the completion `"10"` the claimed single-character
parse fails and would default to Query, but the code parses `int("10") = 10`
and routes the turn to the Visualization path. -/
theorem C2_counterexample :
    intentOf (classify_prompt true (some "10".data)) = Intent.visualization ∧
    claimedClassifyIntent (some "10".data) = Intent.query ∧
    intentOf (classify_prompt true (some "10".data)) ≠
      claimedClassifyIntent (some "10".data) := by decide

/-- C2 amended: `classify_prompt` parses the stripped completion as an
optionally signed decimal numeral (not necessarily single-character); a
parse result of 1 yields Query and any other parsed value yields
Visualization; every parse failure and every gateway failure (including an
unconfigured client) yields the default Intent Query instead of aborting
the turn. -/
theorem C2_amended (completion : Option (List Char)) :
    intentOf (classify_prompt true completion) = amendedClassifyIntent completion ∧
    intentOf (classify_prompt false completion) = Intent.query := by
  constructor
  · cases completion with
    | none => rfl
    | some s =>
      cases h : pyInt s with
      | none => simp [classify_prompt, amendedClassifyIntent, h, intentOf]
      | some n =>
        by_cases hn : n = 1 <;>
          simp [classify_prompt, amendedClassifyIntent, h, intentOf, hn]
  · rfl

/-!  ## C4: non-empty stderr forces a failure -/

/-- C4: whenever the snippet completes with a non-empty stderr buffer,
`execute_code` reports `Execution error: <buffer>` and returns the pair
`(None, None)` — even when the final namespace populated `result` or `fig` —
so the turn can only record a Failure entry. -/
theorem C4_stderr_failure (sem : Globals → ExecResult) (df : Dataset)
    (g : Globals) (dfA : Dataset) (out err : List Char)
    (hrun : sem (mkExecGlobals df) = ExecResult.done g dfA out err)
    (herr : err ≠ []) :
    (execute_code sem df).ret = some (PyVal.pyNone, PyVal.pyNone) ∧
    (execute_code sem df).displayedError = some (execErrPrefixMsg ++ err) ∧
    ∀ (c : Int) (code : List Char),
      (recordedOutcome (mkResponseData code c PyVal.pyNone PyVal.pyNone)).isFailure = true := by
  refine ⟨?_, ?_, ?_⟩
  · simp [execute_code, hrun, execRun, herr]
  · simp [execute_code, hrun, execRun, herr]
  · intro c code
    simp [mkResponseData, recordedOutcome, ExecutionOutcome.isFailure]

/-- C4 witness: a snippet that populates `result` but writes `boom` to
stderr yields `(None, None)` and the stderr contents in the error box. -/
theorem C4_stderr_failure_witness :
    (execute_code errSem dfEmpty).ret = some (PyVal.pyNone, PyVal.pyNone) ∧
    (execute_code errSem dfEmpty).displayedError = some "Execution error: boom".data := by
  have h := C4_stderr_failure errSem dfEmpty
    (("result".data, PyVal.obj 1) :: mkExecGlobals dfEmpty) dfEmpty [] "boom".data
    rfl (by decide)
  exact ⟨h.1, h.2.1.trans (by decide)⟩

/-!  ## C5: synthesis failure skips the sandbox -/

/-- C5: when the Code Synthesizer fails — the gateway call failed (`None`)
or no usable code was extracted (the empty string, falsy under `if code:`) —
the turn records the user entry followed by the Failure entry
`Failed to generate code. Please try again.` and the sandbox never runs. -/
theorem C5_synthesis_failure (s : Session) (env : TurnEnv) (prompt : List Char)
    (df : Dataset) (hdf : s.df = some df) (hkey : s.apiKey ≠ [])
    (hsynth : generate_code s.clientConfigured env.synthCompletion = none ∨
              generate_code s.clientConfigured env.synthCompletion = some []) :
    (submitTurn s env prompt).messages =
      s.messages ++ [userMessage prompt, synthFailMessage] ∧
    (submitTurn s env prompt).sandboxRan = false := by
  rcases hsynth with h | h <;> simp [submitTurn, hdf, hkey, h]

/-- C5 witness: a ready session whose synthesis gateway call fails records
exactly the user entry and the synthesis-failure entry. -/
theorem C5_synthesis_failure_witness :
    (submitTurn sessionReady envSynthFail "hi".data).messages =
      [userMessage "hi".data, synthFailMessage] ∧
    (submitTurn sessionReady envSynthFail "hi".data).sandboxRan = false := by
  have h := C5_synthesis_failure sessionReady envSynthFail "hi".data dfEmpty
    rfl (by decide) (Or.inl rfl)
  exact ⟨h.1, h.2⟩

/-!  ## C6: the sandbox does not shield the dataset from mutation -/

/-- C6 counterexample: a snippet that mutates the shared dataset object in
place is observed by the caller — after the run the dataset no longer equals
the value it had before the call, refuting the unconditional non-mutation
claim. -/
theorem C6_counterexample :
    (execute_code mutSem dfEmpty).dfAfter ≠ dfEmpty ∧
    (execute_code mutSem dfEmpty).dfAfter = dfMut := by decide

/-- C6 amended: the sandbox itself never copies or mutates the dataset — the
caller observes exactly the object state the snippet left — so D is
unchanged after `run(code, D)` if (and only because) the snippet refrains
from in-place mutation, as the synthesis contract demands but nothing
enforces. -/
theorem C6_amended (sem : Globals → ExecResult) (df : Dataset) :
    (execute_code sem df).dfAfter = (sem (mkExecGlobals df)).datasetAfter ∧
    ((sem (mkExecGlobals df)).datasetAfter = df →
      (execute_code sem df).dfAfter = df) := by
  have h : (execute_code sem df).dfAfter = (sem (mkExecGlobals df)).datasetAfter := by
    cases hres : sem (mkExecGlobals df) with
    | done g dfA out err =>
      by_cases he : err = [] <;>
        simp [execute_code, execRun, hres, he, ExecResult.datasetAfter]
    | fault isBase desc dfA out err =>
      cases isBase <;> simp [execute_code, execRun, hres, ExecResult.datasetAfter]
  exact ⟨h, fun hp => h.trans hp⟩

/-- C6 witness: a snippet that leaves the dataset alone lets the caller see
it unchanged. -/
theorem C6_amended_witness : (execute_code preserveSem dfEmpty).dfAfter = dfEmpty :=
  (C6_amended preserveSem dfEmpty).2 rfl

/-!  ## C7: missing dataset or credential rejects the turn upstream -/

/-- C7: with the dataset or the credential absent the chat block of line 241
is never entered: no pipeline stage runs and the transcript is unchanged. -/
theorem C7_guard (s : Session) (env : TurnEnv) (prompt : List Char)
    (h : s.df = none ∨ s.apiKey = []) :
    (submitTurn s env prompt).messages = s.messages ∧
    (submitTurn s env prompt).classifierRan = false ∧
    (submitTurn s env prompt).synthesizerRan = false ∧
    (submitTurn s env prompt).sandboxRan = false := by
  rcases h with h | h
  · simp [submitTurn, h]
  · cases hdf : s.df with
    | none => simp [submitTurn, hdf]
    | some df => simp [submitTurn, hdf, h]

/-- C7 witness: a session without a dataset rejects the turn with the
transcript untouched and the classifier never invoked. -/
theorem C7_guard_witness :
    (submitTurn sessionNoDf envSynthFail "hello".data).messages = [] ∧
    (submitTurn sessionNoDf envSynthFail "hello".data).classifierRan = false := by
  have h := C7_guard sessionNoDf envSynthFail "hello".data (Or.inl rfl)
  exact ⟨h.1, h.2.1⟩

/-!  ## C8: the descriptor is pure, capped at 3 sample rows, idempotent -/

/-- C8: `get_dataframe_info` reads only the dataset and writes nothing (the
session it runs in is returned unchanged), two successive calls on an
unchanged dataset return equal descriptors, and the sample is capped at 3
rows regardless of the row count. -/
theorem C8_descriptor (s : Session) (df : Dataset) :
    (describeCall s df).2 = s ∧
    (describeCall s df).1 = (describeCall (describeCall s df).2 df).1 ∧
    (get_dataframe_info df).sample.length ≤ 3 ∧
    (get_dataframe_info df).sample.length = min 3 df.rows.length := by
  refine ⟨rfl, rfl, ?_, ?_⟩
  · simp [get_dataframe_info, List.length_take]
  · simp [get_dataframe_info, List.length_take]

/-!  ## C9: every call executes in a fresh namespace -/

/-- C9: the namespace handed to a snippet is always the freshly built
`mkExecGlobals` of the current dataset, so a name defined by an earlier
snippet (any name outside the six preset bindings) is absent from the
context of the next snippet, and the behaviour of a call depends only on
what its snippet does on that fresh namespace. -/
theorem C9_fresh_context (sem₁ : Globals → ExecResult) (df₁ df₂ : Dataset)
    (n : List Char) (v : PyVal)
    (_hdef : lookupG (ExecResult.finalGlobals (sem₁ (mkExecGlobals df₁))) n = some v)
    (hfresh : n ∉ presetNames) :
    lookupG (mkExecGlobals df₂) n = none ∧
    ∀ sem₂ sem₂' : Globals → ExecResult,
      sem₂ (mkExecGlobals df₂) = sem₂' (mkExecGlobals df₂) →
      execute_code sem₂ df₂ = execute_code sem₂' df₂ := by
  constructor
  · simp [presetNames, List.mem_cons] at hfresh
    obtain ⟨h1, h2, h3, h4, h5, h6⟩ := hfresh
    simp [mkExecGlobals, lookupG,
      Ne.symm h1, Ne.symm h2, Ne.symm h3, Ne.symm h4, Ne.symm h5, Ne.symm h6]
  · intro sem₂ sem₂' he
    simp [execute_code, he]

/-- C9 witness: after a first snippet defined `my_tmp`, the namespace of the
next call does not contain it. -/
theorem C9_fresh_context_witness :
    lookupG (mkExecGlobals dfEmpty) "my_tmp".data = none :=
  (C9_fresh_context defineSem dfEmpty dfEmpty "my_tmp".data (PyVal.obj 0)
    (by decide) (by decide)).1

/-!  ## C10: what escapes `except Exception` -/

/-- C10 counterexample: a snippet raising outside the `Exception` hierarchy
(`raise SystemExit`) escapes `execute_code` — no pair is returned and no
error box is rendered — refuting the claim that every fault is caught. -/
theorem C10_counterexample :
    (execute_code baseSem dfEmpty).ret = none ∧
    (execute_code baseSem dfEmpty).displayedError = none := by decide

/-- C10 amended: `execute_code` returns a `(result, figure)` pair for every
snippet completion and every fault of Python's `Exception` class — those are
all caught — and fails to return exactly when the snippet raises outside the
`Exception` hierarchy (`SystemExit`, `KeyboardInterrupt`), which
`except Exception` does not catch. -/
theorem C10_amended (sem : Globals → ExecResult) (df : Dataset) :
    (execute_code sem df).ret = none ↔
      (sem (mkExecGlobals df)).raisesBase = true := by
  cases hres : sem (mkExecGlobals df) with
  | done g dfA out err =>
    by_cases he : err = [] <;>
      simp [execute_code, execRun, hres, he, ExecResult.raisesBase]
  | fault isBase desc dfA out err =>
    cases isBase <;> simp [execute_code, execRun, hres, ExecResult.raisesBase]

/-- C10 witness: a normally completing snippet always gets a pair back. -/
theorem C10_amended_witness : (execute_code preserveSem dfEmpty).ret ≠ none := by
  intro hn
  have hb := (C10_amended preserveSem dfEmpty).mp hn
  simp [preserveSem, ExecResult.raisesBase] at hb

/-!  ## Splitting theory for the fence extraction (claim C3)

What follows characterises `pySplit` — Python's leftmost, non-overlapping
`str.split` — on strings of the shape `a ++ sep ++ b`, so that the fence
extraction of `generate_code` can be computed symbolically. -/

theorem listStartsWith_nil (l : List Char) : listStartsWith l [] = true := by
  cases l <;> rfl

theorem listStartsWith_append_left (x u v : List Char) :
    listStartsWith (x ++ u) (x ++ v) = listStartsWith u v := by
  induction x with
  | nil => rfl
  | cons c cs ih => simp [listStartsWith, ih]

theorem listStartsWith_self_append (x y : List Char) :
    listStartsWith (x ++ y) x = true := by
  induction x with
  | nil => exact listStartsWith_nil _
  | cons c cs ih => simp [listStartsWith, ih]

theorem listStartsWith_trunc (l x y : List Char)
    (h : listStartsWith l (x ++ y) = true) : listStartsWith l x = true := by
  induction x generalizing l with
  | nil => exact listStartsWith_nil l
  | cons c cs ih =>
    cases l with
    | nil => simp [listStartsWith] at h
    | cons a as =>
      by_cases hac : a = c
      · subst hac
        simp only [List.cons_append, listStartsWith, if_pos rfl] at h ⊢
        exact ih as h
      · simp [List.cons_append, listStartsWith, hac] at h

theorem no_occur_of_notMem (s : List Char) (c : Char) (t : List Char)
    (h : c ∉ s) (k : Nat) :
    listStartsWith (List.drop k s) (c :: t) = false := by
  cases hd : List.drop k s with
  | nil => simp [listStartsWith]
  | cons a as =>
    have ha : a ∈ s := List.drop_subset k s (by rw [hd]; exact List.mem_cons_self a as)
    have hac : a ≠ c := fun he => h (he ▸ ha)
    simp [listStartsWith, hac]

theorem no_occur_in_region (a rest : List Char) (c : Char) (t : List Char)
    (h : c ∉ a) :
    ∀ k, k < a.length → listStartsWith (List.drop k (a ++ rest)) (c :: t) = false := by
  intro k hk
  rw [List.drop_append_eq_append_drop]
  cases hd : List.drop k a with
  | nil =>
    exfalso
    have := List.drop_eq_nil_iff.mp hd
    omega
  | cons x xs =>
    have hx : x ∈ a := List.drop_subset k a (by rw [hd]; exact List.mem_cons_self x xs)
    have hxc : x ≠ c := fun he => h (he ▸ hx)
    simp [listStartsWith, hxc]

theorem no_occur_append (sep s₁ s₂ : List Char)
    (h₁ : ∀ k, k < s₁.length → listStartsWith (List.drop k (s₁ ++ s₂)) sep = false)
    (h₂ : ∀ k, listStartsWith (List.drop k s₂) sep = false) :
    ∀ k, listStartsWith (List.drop k (s₁ ++ s₂)) sep = false := by
  intro k
  by_cases hk : k < s₁.length
  · exact h₁ k hk
  · push_neg at hk
    rw [List.drop_append_eq_append_drop, List.drop_eq_nil_iff.mpr hk, List.nil_append]
    exact h₂ (k - s₁.length)

theorem pySplitGo_fuel (sep : List Char) :
    ∀ f₁ f₂ s acc, s.length ≤ f₁ → s.length ≤ f₂ →
      pySplitGo sep f₁ s acc = pySplitGo sep f₂ s acc := by
  intro f₁
  induction f₁ with
  | zero =>
    intro f₂ s acc h₁ _
    have hs : s = [] := List.length_eq_zero.mp (Nat.le_zero.mp h₁)
    subst hs
    cases f₂ <;> rfl
  | succ m ih =>
    intro f₂ s acc h₁ h₂
    cases s with
    | nil => cases f₂ <;> rfl
    | cons c cs =>
      cases f₂ with
      | zero => simp at h₂
      | succ m₂ =>
        simp only [pySplitGo]
        by_cases hsw : listStartsWith (c :: cs) sep = true
        · rw [if_pos hsw, if_pos hsw]
          have hlen : (List.drop (sep.length - 1) cs).length ≤ cs.length := by
            simp [List.length_drop]
          have hm : (List.drop (sep.length - 1) cs).length ≤ m := by
            simp at h₁; omega
          have hm₂ : (List.drop (sep.length - 1) cs).length ≤ m₂ := by
            simp at h₂; omega
          rw [ih m₂ _ [] hm hm₂]
        · rw [if_neg hsw, if_neg hsw]
          have hm : cs.length ≤ m := by simp at h₁; omega
          have hm₂ : cs.length ≤ m₂ := by simp at h₂; omega
          exact ih m₂ cs (acc ++ [c]) hm hm₂

theorem pySplitGo_skip (sep : List Char) (a b acc : List Char) (f : Nat)
    (hf : (a ++ b).length ≤ f)
    (h : ∀ k, k < a.length → listStartsWith (List.drop k (a ++ b)) sep = false) :
    pySplitGo sep f (a ++ b) acc = pySplitGo sep (f - a.length) b (acc ++ a) := by
  induction a generalizing acc f with
  | nil => simp
  | cons c a' ih =>
    cases f with
    | zero => simp at hf
    | succ m =>
      have h0 : listStartsWith (c :: (a' ++ b)) sep = false := by
        have := h 0 (by simp)
        simpa using this
      simp only [List.cons_append, pySplitGo, List.append_eq, h0]
      rw [if_neg (by simp [h0])]
      have hf' : (a' ++ b).length ≤ m := by simp at hf ⊢; omega
      have h' : ∀ k, k < a'.length → listStartsWith (List.drop k (a' ++ b)) sep = false := by
        intro k hk
        have := h (k + 1) (by simp; omega)
        simpa [List.drop_succ_cons] using this
      rw [ih (acc ++ [c]) m hf' h']
      have he₁ : m + 1 - (c :: a').length = m - a'.length := by
        simp only [List.length_cons]
        omega
      have he₂ : acc ++ c :: a' = (acc ++ [c]) ++ a' := by simp
      rw [he₁, he₂]

theorem pySplitGo_at_sep (sep : List Char) (hsep : sep ≠ []) (b acc : List Char) (f : Nat)
    (hf : b.length ≤ f) :
    pySplitGo sep (f + 1) (sep ++ b) acc = acc :: pySplit b sep := by
  obtain ⟨c, st, rfl⟩ : ∃ c st, sep = c :: st := by
    cases sep with
    | nil => exact absurd rfl hsep
    | cons c st => exact ⟨c, st, rfl⟩
  have hsw : listStartsWith ((c :: st) ++ b) (c :: st) = true :=
    listStartsWith_self_append (c :: st) b
  simp only [List.cons_append] at hsw
  simp only [List.cons_append, pySplitGo, List.append_eq]
  rw [if_pos hsw]
  rw [show (c :: st).length - 1 = st.length from by simp]
  rw [List.drop_left]
  unfold pySplit
  rw [pySplitGo_fuel (c :: st) f b.length b [] hf (le_refl _)]

theorem pySplit_append_sep (sep : List Char) (hsep : sep ≠ []) (a b : List Char)
    (h : ∀ k, k < a.length → listStartsWith (List.drop k (a ++ (sep ++ b))) sep = false) :
    pySplit (a ++ (sep ++ b)) sep = a :: pySplit b sep := by
  unfold pySplit
  rw [pySplitGo_skip sep a (sep ++ b) [] (a ++ (sep ++ b)).length (le_refl _) h]
  rw [List.nil_append]
  have hsl : 1 ≤ sep.length := by
    cases sep with
    | nil => exact absurd rfl hsep
    | cons c st => simp
  have hlen : (a ++ (sep ++ b)).length - a.length = (sep.length - 1 + b.length) + 1 := by
    simp [List.length_append]
    omega
  rw [hlen]
  exact pySplitGo_at_sep sep hsep b a (sep.length - 1 + b.length) (by omega)

theorem pySplit_no_occur (sep s : List Char)
    (h : ∀ k, listStartsWith (List.drop k s) sep = false) :
    pySplit s sep = [s] := by
  unfold pySplit
  have hskip := pySplitGo_skip sep s [] [] s.length (by simp)
    (fun k _ => by simpa using h k)
  simp only [List.append_nil, List.nil_append] at hskip
  rw [hskip, Nat.sub_self]
  rfl

theorem pyContains_append_sep (sep : List Char) (hsep : sep ≠ []) (a b : List Char) :
    pyContains sep (a ++ (sep ++ b)) = true := by
  induction a with
  | nil =>
    obtain ⟨c, st, rfl⟩ : ∃ c st, sep = c :: st := by
      cases sep with
      | nil => exact absurd rfl hsep
      | cons c st => exact ⟨c, st, rfl⟩
    have hsw : listStartsWith ((c :: st) ++ b) (c :: st) = true :=
      listStartsWith_self_append (c :: st) b
    simp only [List.nil_append, List.cons_append] at hsw ⊢
    simp [pyContains, hsw]
  | cons x a' ih =>
    simp [pyContains, ih]

theorem pyContains_false_of_append (x y s : List Char)
    (h : pyContains x s = false) : pyContains (x ++ y) s = false := by
  induction s with
  | nil =>
    cases x with
    | nil => simp [pyContains, listStartsWith] at h
    | cons c st => simp [pyContains, listStartsWith]
  | cons a s' ih =>
    simp only [pyContains, Bool.or_eq_false_iff] at h ⊢
    obtain ⟨h1, h2⟩ := h
    refine ⟨?_, ih h2⟩
    cases hb : listStartsWith (a :: s') (x ++ y) with
    | false => rfl
    | true => exact absurd (listStartsWith_trunc (a :: s') x y hb) (by simp [h1])

theorem no_occur_fence_py (post : List Char) (hpost : tick ∉ post)
    (hpw : listStartsWith post pythonWord = false) :
    ∀ k, listStartsWith (List.drop k (fence ++ post)) pyFence = false := by
  intro k
  match k with
  | 0 =>
    rw [List.drop_zero, show pyFence = fence ++ pythonWord from rfl,
      listStartsWith_append_left]
    exact hpw
  | 1 =>
    have hd : List.drop 1 (fence ++ post) = [tick, tick] ++ post := rfl
    rw [hd, show pyFence = [tick, tick] ++ (tick :: pythonWord) from rfl,
      listStartsWith_append_left]
    have := no_occur_of_notMem post tick pythonWord hpost 0
    simpa using this
  | 2 =>
    have hd : List.drop 2 (fence ++ post) = [tick] ++ post := rfl
    rw [hd, show pyFence = [tick] ++ (tick :: tick :: pythonWord) from rfl,
      listStartsWith_append_left]
    have := no_occur_of_notMem post tick (tick :: pythonWord) hpost 0
    simpa using this
  | (j + 3) =>
    have hd : List.drop (j + 3) (fence ++ post) = List.drop j post := by
      rw [show fence ++ post = tick :: tick :: tick :: post from rfl]
      simp [List.drop_succ_cons]
    rw [hd, show pyFence = tick :: "``python".data from rfl]
    exact no_occur_of_notMem post tick "``python".data hpost j

theorem extract_python_block (pre body post : List Char)
    (hstrip : pyStrip (pre ++ (pyFence ++ (body ++ (fence ++ post)))) =
              pre ++ (pyFence ++ (body ++ (fence ++ post))))
    (hpre : tick ∉ pre) (hbody : tick ∉ body) (hpost : tick ∉ post)
    (hpw : listStartsWith post pythonWord = false) :
    extract_code (pre ++ (pyFence ++ (body ++ (fence ++ post)))) = pyStrip body := by
  have hc : pyContains pyFence (pre ++ (pyFence ++ (body ++ (fence ++ post)))) = true :=
    pyContains_append_sep pyFence (by decide) pre (body ++ (fence ++ post))
  have hsplit1 : pySplit (pre ++ (pyFence ++ (body ++ (fence ++ post)))) pyFence =
      pre :: pySplit (body ++ (fence ++ post)) pyFence := by
    apply pySplit_append_sep pyFence (by decide) pre (body ++ (fence ++ post))
    intro k hk
    rw [show pyFence = tick :: "``python".data from rfl]
    exact no_occur_in_region pre _ tick _ hpre k hk
  have hnoX : ∀ k, listStartsWith (List.drop k (body ++ (fence ++ post))) pyFence = false := by
    apply no_occur_append
    · intro k hk
      rw [show pyFence = tick :: "``python".data from rfl]
      exact no_occur_in_region body _ tick _ hbody k hk
    · exact no_occur_fence_py post hpost hpw
  have hsplitX : pySplit (body ++ (fence ++ post)) pyFence = [body ++ (fence ++ post)] :=
    pySplit_no_occur pyFence _ hnoX
  have hsplit2 : pySplit (body ++ (fence ++ post)) fence = body :: pySplit post fence := by
    apply pySplit_append_sep fence (by decide) body post
    intro k hk
    rw [show fence = tick :: "``".data from rfl]
    exact no_occur_in_region body _ tick _ hbody k hk
  simp only [extract_code]
  rw [hstrip, if_pos hc, hsplit1, hsplitX]
  simp only [List.getD_cons_succ, List.getD_cons_zero]
  rw [hsplit2]
  simp only [List.getD_cons_zero]

theorem extract_generic_block (pre body post : List Char)
    (hstrip : pyStrip (pre ++ (fence ++ (body ++ (fence ++ post)))) =
              pre ++ (fence ++ (body ++ (fence ++ post))))
    (hnopy : pyContains pyFence (pre ++ (fence ++ (body ++ (fence ++ post)))) = false)
    (hpre : tick ∉ pre) (hbody : tick ∉ body) :
    extract_code (pre ++ (fence ++ (body ++ (fence ++ post)))) = pyStrip body := by
  have hc2 : pyContains fence (pre ++ (fence ++ (body ++ (fence ++ post)))) = true :=
    pyContains_append_sep fence (by decide) pre (body ++ (fence ++ post))
  have hsplit1 : pySplit (pre ++ (fence ++ (body ++ (fence ++ post)))) fence =
      pre :: pySplit (body ++ (fence ++ post)) fence := by
    apply pySplit_append_sep fence (by decide) pre (body ++ (fence ++ post))
    intro k hk
    rw [show fence = tick :: "``".data from rfl]
    exact no_occur_in_region pre _ tick _ hpre k hk
  have hsplit2 : pySplit (body ++ (fence ++ post)) fence = body :: pySplit post fence := by
    apply pySplit_append_sep fence (by decide) body post
    intro k hk
    rw [show fence = tick :: "``".data from rfl]
    exact no_occur_in_region body _ tick _ hbody k hk
  have hsplitB : pySplit body fence = [body] := by
    apply pySplit_no_occur
    intro k
    rw [show fence = tick :: "``".data from rfl]
    exact no_occur_of_notMem body tick "``".data hbody k
  simp only [extract_code]
  rw [hstrip, if_neg (by simp [hnopy]), if_pos hc2, hsplit1, hsplit2]
  simp only [List.getD_cons_succ, List.getD_cons_zero]
  rw [hsplitB]
  simp only [List.getD_cons_zero]

theorem extract_no_fence (raw : List Char)
    (hno : pyContains fence (pyStrip raw) = false) :
    extract_code raw = pyStrip raw := by
  have hnp : pyContains pyFence (pyStrip raw) = false := by
    have := pyContains_false_of_append fence pythonWord (pyStrip raw) hno
    rwa [show fence ++ pythonWord = pyFence from rfl] at this
  simp only [extract_code]
  rw [if_neg (by simp [hnp]), if_neg (by simp [hno])]

/-!  ## C3: code extraction from the completion -/

/-- C3 counterexample: the completion consists of one `sql`-tagged fenced
block with content `SELECT 1`; the claim predicts the block's content is
returned, but the code only recognises the `python` tag, falls into the
generic branch, and returns `sql\nSELECT 1` — the tag word is part of the
extracted code. -/
theorem C3_counterexample :
    isLangTag "sql".data = true ∧
    "```sql\nSELECT 1\n```".data = langBlock "sql".data "SELECT 1".data ∧
    extract_code "```sql\nSELECT 1\n```".data ≠ pyStrip "SELECT 1".data ∧
    extract_code "```sql\nSELECT 1\n```".data = "sql\nSELECT 1".data := by decide

/-- C3 amended: if a ```python-tagged fenced block is present, the text
after the first ```python fence up to the next ``` is returned, stripped of
surrounding whitespace; otherwise, if any generic fenced block is present,
the text between the first two ``` fences is returned, stripped (for a
block tagged with another language, the tag word is thus part of the
returned code); otherwise the entire (stripped) completion text is returned
verbatim.  Stated on completions made of backtick-free segments around the
fences. -/
theorem C3_amended_extraction (pre body post raw : List Char) :
    (raw = pre ++ (pyFence ++ (body ++ (fence ++ post))) →
      pyStrip raw = raw → tick ∉ pre → tick ∉ body → tick ∉ post →
      listStartsWith post pythonWord = false →
      extract_code raw = pyStrip body) ∧
    (raw = pre ++ (fence ++ (body ++ (fence ++ post))) →
      pyStrip raw = raw → pyContains pyFence raw = false →
      tick ∉ pre → tick ∉ body →
      extract_code raw = pyStrip body) ∧
    (pyContains fence (pyStrip raw) = false →
      extract_code raw = pyStrip raw) := by
  refine ⟨?_, ?_, ?_⟩
  · rintro rfl hstrip hpre hbody hpost hpw
    exact extract_python_block pre body post hstrip hpre hbody hpost hpw
  · rintro rfl hstrip hnopy hpre hbody
    exact extract_generic_block pre body post hstrip hnopy hpre hbody
  · intro hno
    exact extract_no_fence raw hno

/-- C3 witness: a completion with prose, a python-tagged block, and nothing
after it extracts exactly the block's code. -/
theorem C3_amended_extraction_witness :
    extract_code "Use this:\n```python\nresult = df.head(10)\n```".data =
      "result = df.head(10)".data := by
  have h := (C3_amended_extraction "Use this:\n".data "\nresult = df.head(10)\n".data []
      "Use this:\n```python\nresult = df.head(10)\n```".data).1
      (by decide) (by decide) (by decide) (by decide) (by decide) (by decide)
  exact h.trans (by decide)

end DataChat
